import Mathlib

/-!
Verification of the Headline_Score repository: a FastAPI inference service
(`score_headlines_api.py`) exposing `GET /status` and `POST /score_headlines`,
and a Streamlit dashboard client (`score_headlines_streamlit.py`) that submits
headline batches to the service.

The Python code is shallowly embedded: the embedding model and the classifier
are abstract function parameters (the repository ships them as pretrained
artifacts), fallible calls are modelled with `Except`, HTTP responses with an
explicit result type, and side effects (model invocations, HTTP posts, UI
messages) are recorded as explicit traces in the return value.
-/

namespace HeadlineScore

/-! ## Embedding of `score_headlines_api.py` -/

/-- Result of an API handler: either a successful JSON payload carrying the
label list, or an `HTTPException(status_code, detail)`. -/
inductive ApiResult where
  | ok (labels : List String) : ApiResult
  | httpError (status : Nat) (detail : String) : ApiResult
deriving DecidableEq, Repr

/-- A model invocation performed while handling a request; used to trace
which of the two pretrained models the handler actually calls. -/
inductive ModelCall where
  | embedCall : ModelCall
  | classifyCall : ModelCall
deriving DecidableEq, Repr

/-- The `LABELS` dict of `score_headlines_api.py`:
`{0: "Pessimistic", 1: "Neutral", 2: "Optimistic"}`, as an association list. -/
def LABELS : List (Int × String) :=
  [(0, "Pessimistic"), (1, "Neutral"), (2, "Optimistic")]

/-- Python's `dict.get(key, default)` on an association list. -/
def dictGet (d : List (Int × String)) (k : Int) (default : String) : String :=
  match d.find? (fun p => p.1 == k) with
  | some p => p.2
  | none => default

/-- The `GET /status` handler `get_status`: returns the JSON object
`{"status": "OK"}` (modelled as an association list) on every invocation. -/
def get_status (_invocation : Unit) : List (String × String) :=
  [("status", "OK")]

/-- The `POST /score_headlines` handler. `embed` models `EMBEDDER.encode`,
`classify` models `CLASSIFIER.predict`; both may raise (`Except.error`).
Returns the handler's result together with the trace of model invocations:
- empty list: `HTTPException(400, "No headlines provided.")`, no model call;
- embedding raises: `HTTPException(500, "Internal server error.")`;
- classification raises: `HTTPException(500, "Internal server error.")`;
- otherwise `{"labels": [LABELS.get(label, "Unknown") for label in predictions]}`. -/
def score_headlines {Emb : Type} (embed : List String → Except String (List Emb))
    (classify : List Emb → Except String (List Int))
    (headlines : List String) : ApiResult × List ModelCall :=
  if headlines.isEmpty then
    (ApiResult.httpError 400 "No headlines provided.", [])
  else
    match embed headlines with
    | Except.error _ =>
        (ApiResult.httpError 500 "Internal server error.", [ModelCall.embedCall])
    | Except.ok embeddings =>
        match classify embeddings with
        | Except.error _ =>
            (ApiResult.httpError 500 "Internal server error.",
              [ModelCall.embedCall, ModelCall.classifyCall])
        | Except.ok predictions =>
            (ApiResult.ok (predictions.map (fun label => dictGet LABELS label "Unknown")),
              [ModelCall.embedCall, ModelCall.classifyCall])

/-- A Python exception, distinguishing `RuntimeError` from other exceptions. -/
inductive PyError where
  | runtimeError (msg : String) : PyError
  | otherError (msg : String) : PyError
deriving DecidableEq, Repr

/-- Module initialization of `score_headlines_api.py`: loads the classifier
(`joblib.load("svm.joblib")`) then the embedder
(`SentenceTransformer("all-MiniLM-L6-v2")`); if either raises, it raises
`RuntimeError("Model loading failed.")` from the original exception. -/
def init_models {C E : Type} (loadClassifier : Except String C)
    (loadEmbedder : Except String E) : Except PyError (C × E) :=
  match loadClassifier with
  | Except.error _ => Except.error (PyError.runtimeError "Model loading failed.")
  | Except.ok c =>
      match loadEmbedder with
      | Except.error _ => Except.error (PyError.runtimeError "Model loading failed.")
      | Except.ok e => Except.ok (c, e)

/-! ## Embedding of `score_headlines_streamlit.py` (the `score` function) -/

/-- Outcome of `requests.post` as observed by the client: either a
`RequestException` or a response with its `ok` flag, status code, the parsed
`"labels"` field of its JSON body (if any), and its text. -/
inductive PostOutcome where
  | exception (msg : String) : PostOutcome
  | response (okFlag : Bool) (status : Nat)
      (labelsField : Option (List String)) (text : String) : PostOutcome

/-- A UI message emitted by the client (`st.warning`, `st.error`, `st.toast`). -/
inductive UIEvent where
  | warning (msg : String) : UIEvent
  | errorMsg (msg : String) : UIEvent
  | toast (msg : String) : UIEvent
deriving DecidableEq, Repr

/-- The part of `st.session_state` that `score` touches. -/
structure ClientState where
  results : Option (List String)
  used_rows : Option (List String)
deriving DecidableEq, Repr

/-- Everything observable about one call of the client's `score` function:
the session state afterwards, the return value, the list of HTTP POST
payloads issued, and the UI messages shown. -/
structure ScoreOutcome where
  state : ClientState
  retVal : Option (List String)
  posts : List (List String)
  events : List UIEvent
deriving Repr

/-- Python's `str.strip()`: remove leading and trailing whitespace
characters. -/
def pyStrip (s : String) : String :=
  ⟨((s.data.dropWhile Char.isWhitespace).reverse.dropWhile
      Char.isWhitespace).reverse⟩

/-- The payload computed by `score`:
`payload_rows = [r.strip() for r in rows if r.strip()]`
(a stripped row is kept when it is truthy, i.e. non-empty). -/
def payloadRows (rows : List String) : List String :=
  (rows.filter (fun r => !(pyStrip r == ""))).map pyStrip

/-- The client's `score` function from `score_headlines_streamlit.py`.
`post` models `requests.post` on the `/score_headlines` URL. Behaviour:
- all rows blank after strip: warn, no request, return `None`;
- `RequestException`: show error, state untouched, return `None`;
- non-ok response: show `API error` message, state untouched, return `None`;
- ok response: store `used_rows` and `results`, toast, return the labels. -/
def score (post : List String → PostOutcome) (st : ClientState)
    (rows : List String) : ScoreOutcome :=
  let payload_rows := payloadRows rows
  if payload_rows.isEmpty then
    { state := st, retVal := none, posts := [],
      events := [UIEvent.warning "Add at least one non-empty headline."] }
  else
    match post payload_rows with
    | PostOutcome.exception msg =>
        { state := st, retVal := none, posts := [payload_rows],
          events := [UIEvent.errorMsg ("Request failed: " ++ msg)] }
    | PostOutcome.response okFlag status labelsField text =>
        if okFlag then
          let labels := labelsField.getD []
          { state := { results := some labels, used_rows := some payload_rows },
            retVal := some labels, posts := [payload_rows],
            events := [UIEvent.toast "Scored"] }
        else
          { state := st, retVal := none, posts := [payload_rows],
            events := [UIEvent.errorMsg
              ("API error " ++ toString status ++ ": " ++ text)] }

/-- A post outcome the client treats as a failure: an exception, or a
response whose `ok` flag is false. -/
def isFailure : PostOutcome → Bool
  | PostOutcome.exception _ => true
  | PostOutcome.response okFlag _ _ _ => !okFlag

/-! ## Theorems -/

/-- C1: for every non-empty headline list, if the embedder and classifier
succeed and the classifier returns as many codes as there are headlines
(the batch-in-order hypothesis), `score_headlines` returns the label list
obtained by mapping the label lookup over the prediction codes in order, so
its length equals the input length and the label at index `i` is the lookup
of the code at index `i`. -/
theorem score_headlines_index_aligned {Emb : Type}
    (embed : List String → Except String (List Emb))
    (classify : List Emb → Except String (List Int))
    (hs : List String) (es : List Emb) (cs : List Int)
    (hne : hs ≠ [])
    (he : embed hs = Except.ok es)
    (hc : classify es = Except.ok cs)
    (hlen : cs.length = hs.length) :
    (score_headlines embed classify hs).1
        = ApiResult.ok (cs.map (fun c => dictGet LABELS c "Unknown"))
      ∧ (cs.map (fun c => dictGet LABELS c "Unknown")).length = hs.length
      ∧ ∀ i : Nat, (cs.map (fun c => dictGet LABELS c "Unknown"))[i]?
          = (cs[i]?).map (fun c => dictGet LABELS c "Unknown") := by
  have h1 : hs.isEmpty = false := by simpa [List.isEmpty_iff] using hne
  refine ⟨?_, by simpa using hlen, fun i => ?_⟩
  · simp [score_headlines, h1, he, hc]
  · simp

/-- Witness for C1 at a concrete two-headline batch. -/
theorem score_headlines_index_aligned_witness :
    (score_headlines (fun l => Except.ok (l.map (fun _ => (0 : Nat))))
        (fun l => Except.ok (l.map (fun _ => (2 : Int)))) ["a", "b"]).1
      = ApiResult.ok ["Optimistic", "Optimistic"] := by
  have h := score_headlines_index_aligned
      (fun l => Except.ok (l.map (fun _ => (0 : Nat))))
      (fun l => Except.ok (l.map (fun _ => (2 : Int))))
      ["a", "b"] [0, 0] [2, 2] (by decide) rfl rfl rfl
  exact h.1.trans rfl

/-- C2: on the empty headline list, `score_headlines` raises
`HTTPException(400, "No headlines provided.")` and its model-invocation trace
is empty: neither the embedder nor the classifier is called, whatever they
are. -/
theorem score_headlines_empty_batch {Emb : Type}
    (embed : List String → Except String (List Emb))
    (classify : List Emb → Except String (List Int)) :
    score_headlines embed classify []
      = (ApiResult.httpError 400 "No headlines provided.", []) := rfl

/-- C3: the label lookup maps 0, 1, 2 to "Pessimistic", "Neutral",
"Optimistic" respectively, and every other classifier output code to
"Unknown". -/
theorem LABELS_lookup_spec (c : Int) :
    (c ≠ 0 → c ≠ 1 → c ≠ 2 → dictGet LABELS c "Unknown" = "Unknown")
    ∧ dictGet LABELS 0 "Unknown" = "Pessimistic"
    ∧ dictGet LABELS 1 "Unknown" = "Neutral"
    ∧ dictGet LABELS 2 "Unknown" = "Optimistic" := by
  refine ⟨?_, rfl, rfl, rfl⟩
  intro h0 h1 h2
  have e0 : ((0 : Int) == c) = false := by simpa using (Ne.symm h0)
  have e1 : ((1 : Int) == c) = false := by simpa using (Ne.symm h1)
  have e2 : ((2 : Int) == c) = false := by simpa using (Ne.symm h2)
  simp [dictGet, LABELS, List.find?, e0, e1, e2]

/-- Witness for C3 at the out-of-range code 5. -/
theorem LABELS_lookup_spec_witness :
    (5 : Int) ≠ 0 ∧ (5 : Int) ≠ 1 ∧ (5 : Int) ≠ 2
    ∧ dictGet LABELS 5 "Unknown" = "Unknown" := by
  exact ⟨by decide, by decide, by decide,
    (LABELS_lookup_spec 5).1 (by decide) (by decide) (by decide)⟩

/-- C4: `get_status` returns exactly the JSON object with the single field
`status` bound to `OK`, on every invocation. -/
theorem get_status_ok (u : Unit) : get_status u = [("status", "OK")] := rfl

/-- C5: on a non-empty batch, if the embedder raises or the classifier
raises, `score_headlines` raises `HTTPException(500, ...)` whose detail is
the fixed string "Internal server error.", independent of the underlying
exception's content. -/
theorem score_headlines_inference_error_500 {Emb : Type}
    (embed : List String → Except String (List Emb))
    (classify : List Emb → Except String (List Int))
    (hs : List String)
    (hne : hs ≠ [])
    (hfail : (∃ e, embed hs = Except.error e)
      ∨ (∃ es e, embed hs = Except.ok es ∧ classify es = Except.error e)) :
    (score_headlines embed classify hs).1
      = ApiResult.httpError 500 "Internal server error." := by
  have h1 : hs.isEmpty = false := by simpa [List.isEmpty_iff] using hne
  rcases hfail with ⟨e, he⟩ | ⟨es, e, he, hc⟩
  · simp [score_headlines, h1, he]
  · simp [score_headlines, h1, he, hc]

/-- Witness for C5: a one-headline batch whose embedder raises. -/
theorem score_headlines_inference_error_500_witness :
    (["a"] : List String) ≠ []
    ∧ (score_headlines (fun _ => (Except.error "boom" : Except String (List Nat)))
        (fun _ => Except.ok []) ["a"]).1
      = ApiResult.httpError 500 "Internal server error." := by
  exact ⟨by decide, score_headlines_inference_error_500
    (fun _ => (Except.error "boom" : Except String (List Nat)))
    (fun _ => Except.ok []) ["a"] (by decide) (Or.inl ⟨"boom", rfl⟩)⟩

/-- C6 counterexample: the batch `["   "]` is empty after trimming
whitespace, yet `score_headlines` does not reject it with a 400 client
error — with an embedder and classifier that succeed, it returns the
label list `["Pessimistic"]`. The handler tests only literal list
emptiness (`if not headlines`). -/
theorem whitespace_batch_not_rejected :
    (score_headlines (fun l => Except.ok (l.map (fun _ => (0 : Nat))))
        (fun l => Except.ok (l.map (fun _ => (0 : Int)))) ["   "]).1
      = ApiResult.ok ["Pessimistic"]
    ∧ ¬ ∃ d, (score_headlines (fun l => Except.ok (l.map (fun _ => (0 : Nat))))
        (fun l => Except.ok (l.map (fun _ => (0 : Int)))) ["   "]).1
      = ApiResult.httpError 400 d := by
  refine ⟨rfl, ?_⟩
  rintro ⟨d, hd⟩
  have h : ApiResult.ok ["Pessimistic"] = ApiResult.httpError 400 d := hd
  cases h

/-- C6 amended: `score_headlines` returns a 400 client error exactly when
the headline list is literally empty; a batch whose elements are all
whitespace is not rejected (whitespace trimming happens only in the
dashboard client, not in the service). -/
theorem score_headlines_400_iff_literally_empty {Emb : Type}
    (embed : List String → Except String (List Emb))
    (classify : List Emb → Except String (List Int))
    (hs : List String) :
    (∃ d, (score_headlines embed classify hs).1 = ApiResult.httpError 400 d)
      ↔ hs = [] := by
  constructor
  · rintro ⟨d, hd⟩
    by_contra hne
    have h1 : hs.isEmpty = false := by simpa [List.isEmpty_iff] using hne
    rcases he : embed hs with e | es
    · simp [score_headlines, h1, he] at hd
    · rcases hc : classify es with e | cs
      · simp [score_headlines, h1, he, hc] at hd
      · simp [score_headlines, h1, he, hc] at hd
  · rintro rfl
    exact ⟨"No headlines provided.", rfl⟩

/-- C7: if loading the classifier raises, or loading the embedding model
raises, module initialization raises `RuntimeError("Model loading failed.")`
(so the module never finishes importing and the process does not serve). -/
theorem init_models_load_failure_fatal {C E : Type}
    (loadClassifier : Except String C) (loadEmbedder : Except String E)
    (hfail : (∃ e, loadClassifier = Except.error e)
      ∨ (∃ e, loadEmbedder = Except.error e)) :
    init_models loadClassifier loadEmbedder
      = Except.error (PyError.runtimeError "Model loading failed.") := by
  rcases hfail with ⟨e, he⟩ | ⟨e, he⟩
  · simp [init_models, he]
  · rcases hc : loadClassifier with e2 | c
    · simp [init_models, hc]
    · simp [init_models, hc, he]

/-- Witness for C7: the classifier file fails to load while the embedder
would have loaded. -/
theorem init_models_load_failure_fatal_witness :
    init_models (Except.error "svm.joblib not found" : Except String Unit)
        (Except.ok () : Except String Unit)
      = Except.error (PyError.runtimeError "Model loading failed.") := by
  exact init_models_load_failure_fatal
    (Except.error "svm.joblib not found") (Except.ok ())
    (Or.inl ⟨"svm.joblib not found", rfl⟩)

/-- C8: the client's `score` function posts exactly one request carrying the
trimmed non-blank rows in order, unless every row is blank after trimming,
in which case it issues no request, shows the validation warning, leaves the
session state unchanged and returns `None`. -/
theorem score_posts_trimmed_nonblank (post : List String → PostOutcome)
    (st : ClientState) (rows : List String) :
    (score post st rows).posts
        = (if (payloadRows rows).isEmpty then [] else [payloadRows rows])
    ∧ (if (payloadRows rows).isEmpty then
          score post st rows
            = { state := st, retVal := none, posts := [],
                events := [UIEvent.warning "Add at least one non-empty headline."] }
        else True) := by
  cases h : (payloadRows rows).isEmpty with
  | true => simp [score, h]
  | false =>
      cases hp : post (payloadRows rows) with
      | exception m => simp [score, h, hp]
      | response okFlag status lf t => cases okFlag <;> simp [score, h, hp]

/-- C9: the client's `score` function issues at most one POST (no retry),
and whenever the single request fails (exception or non-ok response) the
session state is unchanged, the return value is `None`, and an inline error
message is shown. -/
theorem score_no_retry_failure_inert (post : List String → PostOutcome)
    (st : ClientState) (rows : List String) :
    (score post st rows).posts.length ≤ 1
    ∧ ((payloadRows rows).isEmpty = false →
        isFailure (post (payloadRows rows)) = true →
        (score post st rows).state = st
        ∧ (score post st rows).retVal = none
        ∧ ∃ m, UIEvent.errorMsg m ∈ (score post st rows).events) := by
  constructor
  · cases h : (payloadRows rows).isEmpty with
    | true => simp [score, h]
    | false =>
        cases hp : post (payloadRows rows) with
        | exception m => simp [score, h, hp]
        | response okFlag status lf t => cases okFlag <;> simp [score, h, hp]
  · intro h hfail
    cases hp : post (payloadRows rows) with
    | exception m =>
        refine ⟨?_, ?_, "Request failed: " ++ m, ?_⟩ <;> simp [score, h, hp]
    | response okFlag status lf t =>
        cases okFlag with
        | true => rw [hp] at hfail; simp [isFailure] at hfail
        | false =>
            refine ⟨?_, ?_, "API error " ++ toString status ++ ": " ++ t, ?_⟩ <;>
              simp [score, h, hp]

/-- Witness for C9: a non-blank row whose POST raises a timeout exception. -/
theorem score_no_retry_failure_inert_witness :
    (payloadRows ["a"]).isEmpty = false
    ∧ isFailure ((fun _ => PostOutcome.exception "timeout") (payloadRows ["a"])) = true
    ∧ (score (fun _ => PostOutcome.exception "timeout")
        ⟨some ["old"], some ["oldrow"]⟩ ["a"]).posts.length ≤ 1
    ∧ (score (fun _ => PostOutcome.exception "timeout")
        ⟨some ["old"], some ["oldrow"]⟩ ["a"]).state = ⟨some ["old"], some ["oldrow"]⟩
    ∧ (score (fun _ => PostOutcome.exception "timeout")
        ⟨some ["old"], some ["oldrow"]⟩ ["a"]).retVal = none := by
  have h := score_no_retry_failure_inert (fun _ => PostOutcome.exception "timeout")
    ⟨some ["old"], some ["oldrow"]⟩ ["a"]
  have h2 := h.2 (by decide) rfl
  exact ⟨by decide, rfl, h.1, h2.1, h2.2.1⟩

/-- Every result of the label lookup with default "Unknown" is one of the
four label strings. -/
theorem dictGet_LABELS_cases (c : Int) :
    dictGet LABELS c "Unknown" = "Pessimistic"
    ∨ dictGet LABELS c "Unknown" = "Neutral"
    ∨ dictGet LABELS c "Unknown" = "Optimistic"
    ∨ dictGet LABELS c "Unknown" = "Unknown" := by
  rcases h : LABELS.find? (fun p => p.1 == c) with _ | ⟨k, v⟩
  · simp [dictGet, h]
  · have hm : (k, v) ∈ LABELS := List.mem_of_find?_eq_some h
    have hd : dictGet LABELS c "Unknown" = v := by simp [dictGet, h]
    rw [hd]
    simp only [LABELS, List.mem_cons, List.not_mem_nil, or_false,
      Prod.mk.injEq] at hm
    rcases hm with ⟨_, rfl⟩ | ⟨_, rfl⟩ | ⟨_, rfl⟩ <;> simp

/-- C10: whatever codes the classifier returns, the label lookup is total
and every label in a successful `score_headlines` response is one of
"Pessimistic", "Neutral", "Optimistic", "Unknown". -/
theorem score_headlines_labels_in_domain {Emb : Type}
    (embed : List String → Except String (List Emb))
    (classify : List Emb → Except String (List Int))
    (hs : List String) (labels : List String)
    (hok : (score_headlines embed classify hs).1 = ApiResult.ok labels) :
    ∀ l ∈ labels, l = "Pessimistic" ∨ l = "Neutral" ∨ l = "Optimistic"
      ∨ l = "Unknown" := by
  intro l hl
  cases h1 : hs.isEmpty with
  | true => simp [score_headlines, h1] at hok
  | false =>
      rcases he : embed hs with e | es
      · simp [score_headlines, h1, he] at hok
      · rcases hc : classify es with e | cs
        · simp [score_headlines, h1, he, hc] at hok
        · simp [score_headlines, h1, he, hc] at hok
          subst hok
          obtain ⟨c, _, rfl⟩ := List.mem_map.mp hl
          exact dictGet_LABELS_cases c

/-- Witness for C10 at a concrete batch with classifier code 7. -/
theorem score_headlines_labels_in_domain_witness :
    (score_headlines (fun l => Except.ok (l.map (fun _ => (0 : Nat))))
        (fun l => Except.ok (l.map (fun _ => (7 : Int)))) ["a"]).1
      = ApiResult.ok ["Unknown"]
    ∧ ("Unknown" = "Pessimistic" ∨ "Unknown" = "Neutral"
        ∨ "Unknown" = "Optimistic" ∨ ("Unknown" : String) = "Unknown") := by
  refine ⟨rfl, ?_⟩
  exact score_headlines_labels_in_domain
    (fun l => Except.ok (l.map (fun _ => (0 : Nat))))
    (fun l => Except.ok (l.map (fun _ => (7 : Int)))) ["a"] ["Unknown"] rfl
    "Unknown" (by simp)

end HeadlineScore
